import Mathlib

/-!
Verification of the Thockify audio subsystem against its natural-language
specification.  The definitions below are a shallow embedding of the
TypeScript source (`src/content/audio-manager.ts`, the buffer-pooled
`AudioManager`, and `src/utils/audio-utils.ts` / `src/utils/constants.ts`):

* volumes and gain values are modelled as rationals (`ℚ`, written with
  `mkRat` so that every value is kernel-computable);
* JavaScript `Map`s become association lists with `Map.set` update-or-append
  semantics, decoded `AudioBuffer`s become numeric identifiers;
* the asynchronous parts (asset loading with per-file outcomes, playback,
  completion callbacks, device suspension and resume failure) are driven by
  explicit environment/event parameters on a single-threaded event loop, as
  described in the spec's concurrency model;
* JavaScript exceptions are modelled with `Except` / an explicit error
  component; a `catch` in the source becomes an explicit branch.
-/

deriving instance DecidableEq for Except

namespace Thockify

/-- Key categories: `KeyType` from `src/utils/audio-utils.ts`. -/
inductive KeyType where
  | generic
  | backspace
  | enter
  | space
deriving DecidableEq, Repr

/-- Sound actions: `SoundAction` from `src/utils/audio-utils.ts`. -/
inductive SoundAction where
  | press
  | release
deriving DecidableEq, Repr

/-- String form of a key category, as used for buffer keys in the source
(the keys of `PATHS.SOUND_FILES.press` / `.release`). -/
def KeyType.toStr : KeyType → String
  | .generic => "generic"
  | .backspace => "backspace"
  | .enter => "enter"
  | .space => "space"

/-- String form of a sound action. -/
def SoundAction.toStr : SoundAction → String
  | .press => "press"
  | .release => "release"

/-- The `(key, code)` pair of a DOM `KeyboardEvent`, the only fields
`classifyKey` reads. -/
structure KeyEvent where
  key : String
  code : String
deriving DecidableEq, Repr

/-- Model of JavaScript `String.prototype.toLowerCase` on the ASCII range
(the range in which all compared key names live). -/
def strLower (s : String) : String := String.mk (s.data.map Char.toLower)

/-- `classifyKey` from `src/utils/audio-utils.ts` lines 18-39: lower-case
both fields, then test space, enter, backspace in order, falling through to
`generic`. -/
def classifyKey (e : KeyEvent) : KeyType :=
  let key := strLower e.key
  let code := strLower e.code
  if key = " " ∨ code = "space" then .space
  else if key = "enter" ∨ code = "enter" then .enter
  else if key = "backspace" ∨ code = "backspace" then .backspace
  else .generic

/-! ### Constants (`src/utils/constants.ts`, `AUDIO_CONFIG`) -/

/-- `AUDIO_CONFIG.DEFAULT_VOLUME = 0.5`. -/
def DEFAULT_VOLUME : ℚ := mkRat 1 2

/-- `AUDIO_CONFIG.MAX_CONCURRENT_SOUNDS = 10`; also the value of the
`readonly maxPoolSize` field of `AudioManager`. -/
def MAX_CONCURRENT_SOUNDS : Nat := 10

/-- `Math.min` on the (non-NaN) numbers that occur here. -/
def jsMin (a b : ℚ) : ℚ := if a ≤ b then a else b

/-- `Math.max` on the (non-NaN) numbers that occur here. -/
def jsMax (a b : ℚ) : ℚ := if a ≤ b then b else a

/-! ### JavaScript `Map<string, AudioBuffer>` as an association list.
`AudioBuffer`s are immutable decoded data; we model each one by a numeric
identifier. `Map.set` updates an existing key in place or appends. -/

/-- Buffer map: insertion-ordered association list, keys unique. -/
abbrev BufMap := List (String × Nat)

/-- `Map.get`. -/
def bmGet : BufMap → String → Option Nat
  | [], _ => none
  | (k', v') :: rest, k => if k' = k then some v' else bmGet rest k

/-- `Map.set`: replace the value at an existing key, else append. -/
def bmSet : BufMap → String → Nat → BufMap
  | [], k, v => [(k, v)]
  | (k', v') :: rest, k, v =>
      if k' = k then (k, v) :: rest else (k', v') :: bmSet rest k v

/-- `Array.from(map.keys())`. -/
def bmKeys (m : BufMap) : List String := m.map Prod.fst

/-! ### AudioManager state

One record per mutable field of the `AudioManager` class (part of
`src/content/audio-manager.ts`).  `audioContext` is modelled by its
`buffers` map when present (`ThockifyAudioContext.buffers`); whether the
underlying device is suspended at a given call is an environment input.
`masterGainNode` is modelled by its current gain value when present.
`preloadingPromiseSet` records whether `preloadingPromise` is non-null.
`sourceNodePool` is declared in the source but never written to except
being cleared, so it is not modelled.  Each one-shot source node is a
distinct object; we model it by a numeric identity fresh for the current
active set (`freshSourceId`). -/

structure AMState where
  audioContext : Option BufMap
  isInitialized : Bool
  preloadingPromiseSet : Bool
  masterGainNode : Option ℚ
  activeSourceNodes : List Nat
  audioBuffers : BufMap
  preloadStartTime : ℚ
  totalFiles : Nat
  loadedFiles : Nat
  failedFiles : Nat
  currentVolume : ℚ
  isMuted : Bool
  volumeBeforeMute : ℚ
  gainNodePool : Nat
  concurrentSoundsCount : Nat
deriving DecidableEq, Repr

/-- The field initializers of the `AudioManager` class (a freshly
constructed, not yet initialized manager). -/
def AMState.fresh : AMState where
  audioContext := none
  isInitialized := false
  preloadingPromiseSet := false
  masterGainNode := none
  activeSourceNodes := []
  audioBuffers := []
  preloadStartTime := 0
  totalFiles := 0
  loadedFiles := 0
  failedFiles := 0
  currentVolume := DEFAULT_VOLUME
  isMuted := false
  volumeBeforeMute := DEFAULT_VOLUME
  gainNodePool := 0
  concurrentSoundsCount := 0

/-! ### Volume / mute controller (`setVolume`, `getVolume`, `toggleMute`,
`setMute`, `isMutedState`; audio-manager lines 444-523)

`setVolume` is called with the default `rampTimeMs = 0` everywhere in the
claims, so the master gain is assigned its target immediately; with a
positive ramp the source schedules a linear ramp to the very same target
value, so the recorded gain is the (eventual) target in both cases. -/

/-- `setVolume` (lines 444-484).  Note the source order: `currentVolume`
is assigned the clamped value first; the mute branch then reads the
already-overwritten `this.currentVolume` in its ternary. -/
def setVolume (s0 : AMState) (volume : ℚ) : AMState :=
  let clampedVolume := jsMax 0 (jsMin 1 volume)
  let s1 := { s0 with currentVolume := clampedVolume }
  match s1.masterGainNode with
  | none => s1  -- console.warn('Master gain node not available'); return
  | some _ =>
      let s2 :=
        if clampedVolume = 0 ∧ s1.isMuted = false then
          { s1 with
            volumeBeforeMute :=
              if 0 < s1.currentVolume then s1.currentVolume
              else s1.volumeBeforeMute
            isMuted := true }
        else if 0 < clampedVolume ∧ s1.isMuted = true then
          { s1 with isMuted := false }
        else s1
      let targetVolume : ℚ := if s2.isMuted then 0 else clampedVolume
      { s2 with masterGainNode := some targetVolume }

/-- `getVolume` (lines 489-491): returns `this.currentVolume`. -/
def getVolume (s : AMState) : ℚ := s.currentVolume

/-- `toggleMute` (lines 496-504): mute by `setVolume(0)` after saving the
current volume, unmute by `setVolume(volumeBeforeMute)`; returns the
resulting `isMuted` flag. -/
def toggleMute (s : AMState) : AMState × Bool :=
  let s' :=
    if s.isMuted then setVolume s s.volumeBeforeMute
    else setVolume { s with volumeBeforeMute := s.currentVolume } 0
  (s', s'.isMuted)

/-- `setMute` (lines 509-516). -/
def setMute (s : AMState) (muted : Bool) : AMState :=
  if muted = true ∧ s.isMuted = false then
    setVolume { s with volumeBeforeMute := s.currentVolume } 0
  else if muted = false ∧ s.isMuted = true then
    setVolume s s.volumeBeforeMute
  else s

/-- `isMutedState` (lines 521-523). -/
def isMutedState (s : AMState) : Bool := s.isMuted

/-! ### Asset loading (`preloadSounds`, `executePreloading`,
`loadSoundBufferWithTimeout`, `loadSoundBuffer`, `shouldUseFallback`,
`loadFallbackBuffer`; audio-manager lines 167-326)

All catalog loads are issued concurrently and awaited as a batch
(`Promise.allSettled`).  We model a load run by the list of per-file
completion outcomes in the order in which they are handled on the event
loop: each `LoadEvent` is the settlement of one
`loadSoundBufferWithTimeout(action, keyType, …)` call, `success = true`
when the fetch+decode won the race against the timeout, `false` on
fetch/decode error or timeout.  The relative order of the events is
exactly the nondeterminism of network timing that the fallback logic is
sensitive to (`shouldUseFallback` consults the buffers *already* loaded
when a failure is handled). -/

/-- Errors thrown by the manager, by source message:
`audioUnavailable` = 'Audio not supported in this browser' /
'Failed to create audio context' (spec: **AudioUnavailable**);
`noAudioContext` = 'Audio context not available';
`noBuffersLoaded` = 'Failed to load any audio files'
(spec: **NoBuffersLoaded**); `playbackFailure` is the spec's
**PlaybackFailure** taxon, never surfaced by the code. -/
inductive AMError where
  | audioUnavailable
  | noAudioContext
  | noBuffersLoaded
  | playbackFailure
deriving DecidableEq, Repr

/-- Settlement of one catalog load: the `keyType`s iterated by
`executePreloading` are exactly the keys of `PATHS.SOUND_FILES.press` /
`.release`, i.e. the four key categories. -/
structure LoadEvent where
  action : SoundAction
  keyType : KeyType
  success : Bool
deriving DecidableEq, Repr

/-- The `` `${action}:${keyType}` `` buffer key. -/
def bufferKey (a : SoundAction) (k : String) : String := a.toStr ++ ":" ++ k

/-- Identifier of the decoded `AudioBuffer` produced by a successful load
of the catalog asset for the given slot (each asset file decodes to its
own buffer; fallback aliases an existing one). -/
def assetBufferId (a : SoundAction) (kt : KeyType) : Nat :=
  (match a with | .press => 0 | .release => 4) +
  (match kt with | .generic => 0 | .backspace => 1 | .enter => 2 | .space => 3)

/-- The buffer key of the press/generic slot, `'press:generic'`. -/
def pressGenericKey : String := bufferKey .press "generic"

/-- The buffer key of the press/backspace slot, `'press:backspace'`. -/
def pressBackspaceKey : String := bufferKey .press "backspace"

/-- End of `loadSoundBuffer` (lines 282-294): store the decoded buffer in
both the audio context's map and the local buffer map. -/
def storeBuffer (s : AMState) (key : String) (b : Nat) : AMState :=
  { s with audioContext := (s.audioContext).map (fun m => bmSet m key b)
         , audioBuffers := bmSet s.audioBuffers key b }

/-- `shouldUseFallback` (lines 299-307). -/
def shouldUseFallback (s : AMState) (a : SoundAction) (k : String) : Bool :=
  ((k == "backspace") || (k == "enter") || (k == "space")) &&
  (bmGet s.audioBuffers (bufferKey a k)).isNone &&
  (bmGet s.audioBuffers (bufferKey a "generic")).isSome

/-- `loadFallbackBuffer` (lines 312-326): alias the already-loaded generic
buffer under the failed key and count it as a successful load. -/
def loadFallbackBuffer (s : AMState) (a : SoundAction) (k : String) : AMState :=
  match bmGet s.audioBuffers (bufferKey a "generic") with
  | some genericBuffer =>
      { storeBuffer s (bufferKey a k) genericBuffer with
          loadedFiles := s.loadedFiles + 1 }
  | none => s

/-- Settling one `loadSoundBufferWithTimeout` call (lines 235-277): on
success the buffer was stored by `loadSoundBuffer` and `loadedFiles` is
incremented; on failure `failedFiles` is incremented and, for a
non-generic key, the generic fallback is attempted. -/
def handleLoadEvent (s : AMState) (e : LoadEvent) : AMState :=
  let k := e.keyType.toStr
  if e.success then
    { storeBuffer s (bufferKey e.action k) (assetBufferId e.action e.keyType) with
        loadedFiles := s.loadedFiles + 1 }
  else
    let s1 := { s with failedFiles := s.failedFiles + 1 }
    if (k != "generic") && shouldUseFallback s1 e.action k then
      loadFallbackBuffer s1 e.action k
    else s1

/-- `preloadSounds` (lines 167-194): reset the loading stats, set
`totalFiles` to the catalog size (4 press + 4 release), run all loads
(`executePreloading` via `preloadingPromise`), then throw
`noBuffersLoaded` if no file loaded.  `now` is the `performance.now()`
reading at the start.  The error component models the thrown exception;
mutations made before a throw persist, as in the source. -/
def preloadSounds (s : AMState) (events : List LoadEvent) (now : ℚ) :
    AMState × Option AMError :=
  match s.audioContext with
  | none => (s, some .noAudioContext)
  | some _ =>
      let s := { s with preloadStartTime := now
                      , totalFiles := 8
                      , loadedFiles := 0
                      , failedFiles := 0
                      , preloadingPromiseSet := true }
      let s := events.foldl handleLoadEvent s
      if s.loadedFiles = 0 then (s, some .noBuffersLoaded) else (s, none)

/-- Environment of one `initialize()` call: whether `createAudioContext`
throws, the load-settlement order, and the starting clock reading. -/
structure InitEnv where
  contextFails : Bool
  loadEvents : List LoadEvent
  now : ℚ
deriving Repr

/-- `initialize` (lines 41-74): no-op if already initialized; create the
audio context (propagating `audioUnavailable` on failure), create the
master gain node at `DEFAULT_VOLUME`, resume a suspended device,
pre-create `Math.min(maxPoolSize, 5)` pooled gain nodes, preload all
sounds, then mark initialized.  Any error thrown during preloading is
logged and re-thrown (the `catch` block re-throws), leaving the state
mutated so far with `isInitialized` still false. -/
def amInit (s : AMState) (env : InitEnv) : AMState × Option AMError :=
  if s.isInitialized then (s, none)
  else if env.contextFails then (s, some .audioUnavailable)
  else
    let s := { s with
      audioContext := some []
      masterGainNode := some DEFAULT_VOLUME
      gainNodePool :=
        if MAX_CONCURRENT_SOUNDS ≤ 5 then MAX_CONCURRENT_SOUNDS else 5 }
    match preloadSounds s env.loadEvents env.now with
    | (s', some e) => (s', some e)
    | (s', none) => ({ s' with isInitialized := true }, none)

/-- `isReady` (lines 554-561). -/
def isReady (s : AMState) : Bool :=
  (s.isInitialized && s.audioContext.isSome) &&
  (decide (0 < s.audioBuffers.length)) &&
  (!s.preloadingPromiseSet || decide (0 < s.loadedFiles))

/-- Return shape of `getPreloadingStats`. -/
structure PreloadStats where
  isComplete : Bool
  totalFiles : Nat
  loadedFiles : Nat
  failedFiles : Nat
  loadedBuffers : List String
  loadTimeMs : Option ℚ
deriving DecidableEq, Repr

/-- `getPreloadingStats` (lines 566-590); `now` is the `performance.now()`
reading at the call. -/
def getPreloadingStats (s : AMState) (now : ℚ) : PreloadStats where
  isComplete := !s.preloadingPromiseSet
  totalFiles := s.totalFiles
  loadedFiles := s.loadedFiles
  failedFiles := s.failedFiles
  loadedBuffers := bmKeys s.audioBuffers
  loadTimeMs :=
    if 0 < s.preloadStartTime then some (now - s.preloadStartTime) else none

/-! ### Playback (`playKeySound` and the pooling helpers;
audio-manager lines 96-162 and 331-421) -/

/-- `canPlayConcurrentSound` (lines 129-131). -/
def canPlayConcurrentSound (s : AMState) : Bool :=
  decide (s.concurrentSoundsCount < MAX_CONCURRENT_SOUNDS)

/-- `acquireGainNode` (lines 96-111) as it acts on the pool size: take a
pooled node if the pool is non-empty, otherwise create a fresh node
(`Nat` subtraction is exactly "decrement if non-empty"). -/
def acquireGainNode (pool : Nat) : Nat := pool - 1

/-- `releaseGainNode` (lines 116-124) as it acts on the pool size: return
the node to the pool unless the pool is already full. -/
def releaseGainNode (pool : Nat) : Nat :=
  if pool < MAX_CONCURRENT_SOUNDS then pool + 1 else pool

/-- `releaseGainNode` iterated (used for the batched completion callbacks
of force-stopped sources, two gain nodes per source). -/
def releasePoolMany (pool : Nat) : Nat → Nat
  | 0 => pool
  | n + 1 => releasePoolMany (releaseGainNode pool) n

/-- `getKeyTypeVolumeMultiplier` (lines 426-439). -/
def getKeyTypeVolumeMultiplier (kt : KeyType) : ℚ :=
  match kt with
  | .space => mkRat 11 10
  | .enter => mkRat 21 20
  | .backspace => mkRat 19 20
  | .generic => 1

/-- Identity of the fresh one-shot source node created by
`createBufferSource()`: a value distinct from every currently active
source (sources are distinct objects; only distinctness matters). -/
def freshSourceId (s : AMState) : Nat := s.activeSourceNodes.foldr max 0 + 1

/-- The buffer lookup performed by `playKeySound` (lines 367-376):
`audioBuffers.get(bufferKey) || audioContext.buffers?.get(bufferKey)`. -/
def resolvedBuffer (s : AMState) (kt : KeyType) (a : SoundAction) : Option Nat :=
  let key := bufferKey a kt.toStr
  match bmGet s.audioBuffers key with
  | some b => some b
  | none =>
      match s.audioContext with
      | some m => bmGet m key
      | none => none

/-- Environment of one `playKeySound` call: whether the output device is
suspended at the call and resuming it fails, and whether the audio-graph
construction inside the `try` block throws before the source is
registered (`connectThrows`) or at the final `source.start(0)`
(`startThrows`). -/
structure PlayEnv where
  suspended : Bool
  resumeFails : Bool
  connectThrows : Bool
  startThrows : Bool
deriving DecidableEq, Repr

/-- `playKeySound` (lines 331-421).  The result pairs the state with the
buffer identifier actually started (`none` when nothing was played); the
`Except` layer records a thrown exception escaping to the caller — every
`return` and every `catch` in the source yields `.ok`.  Each call is one
event-loop task; by the spec's concurrency model no other mutation
interleaves with it. -/
def playKeySound (s : AMState) (kt : KeyType) (a : SoundAction) (volume : ℚ)
    (env : PlayEnv) : Except AMError (AMState × Option Nat) :=
  if !s.isInitialized || !s.audioContext.isSome || !s.masterGainNode.isSome then
    .ok (s, none)  -- console.warn('AudioManager not initialized'); return
  else if s.isMuted then
    .ok (s, none)  -- skip playback if muted
  else if !canPlayConcurrentSound s then
    .ok (s, none)  -- maximum concurrent sounds reached, skipping playback
  else if env.suspended && env.resumeFails then
    .ok (s, none)  -- context.resume() rejected: caught, logged, return
  else
    match resolvedBuffer s kt a with
    | none => .ok (s, none)  -- no audio buffer available: warn and return
    | some b =>
        -- try: createBufferSource, acquire two gain nodes from the pool,
        -- set the clamped volume and the key-type multiplier, connect
        -- source -> soundGain -> keyTypeGain -> masterGain
        let pool2 := acquireGainNode (acquireGainNode s.gainNodePool)
        if env.connectThrows then
          -- the graph construction threw before the source was registered;
          -- caught and logged, the acquired gain nodes are not returned
          .ok ({ s with gainNodePool := pool2 }, none)
        else
          -- track the source, increment the counter, install onended
          let sAdded := { s with
            gainNodePool := pool2
            activeSourceNodes := freshSourceId s :: s.activeSourceNodes
            concurrentSoundsCount := s.concurrentSoundsCount + 1 }
          if env.startThrows then
            .ok (sAdded, none)  -- source.start(0) threw: caught and logged
          else
            .ok (sAdded, some b)

/-- The `onended` callback of a started source (lines 407-414), fired when
that sound finishes playing naturally: remove the source from the active
set, decrement the counter (`Math.max(0, count - 1)` is `Nat` subtraction),
and return the two gain nodes to the pool.  The callbacks of sources that
were force-stopped by `stopAllSounds` are accounted for inside
`stopAllSounds` itself (see there), so this event concerns a source that is
still in the active set. -/
def soundEnded (s : AMState) (src : Nat) : AMState :=
  if src ∈ s.activeSourceNodes then
    { s with activeSourceNodes := s.activeSourceNodes.erase src
           , concurrentSoundsCount := s.concurrentSoundsCount - 1
           , gainNodePool := releaseGainNode (releaseGainNode s.gainNodePool) }
  else s

/-- `stopAllSounds` (lines 538-549): `source.stop()` every active source
(ignoring already-stopped errors), clear the set, zero the counter.
Stopping a source fires its `onended` callback; on the single-threaded
event loop those callbacks are dispatched before any subsequent call into
the manager, each finding the set already cleared (`Set.delete` a no-op)
and the counter already zero (clamped by `Math.max(0, ·)`), so their net
effect is returning the two gain nodes per stopped source to the pool —
which we fold into this step. -/
def stopAllSounds (s : AMState) : AMState :=
  { s with activeSourceNodes := []
         , concurrentSoundsCount := 0
         , gainNodePool :=
             releasePoolMany s.gainNodePool (2 * s.activeSourceNodes.length) }

/-- `destroy` (lines 595-625): stop all active sources, close the audio
context, clear both buffer maps and both pools, and reset every property
to its constructor value. -/
def destroy (s : AMState) : AMState :=
  let s := stopAllSounds s
  { s with audioContext := none
         , audioBuffers := []
         , gainNodePool := 0
         , masterGainNode := none
         , isInitialized := false
         , preloadingPromiseSet := false
         , preloadStartTime := 0
         , totalFiles := 0
         , loadedFiles := 0
         , failedFiles := 0
         , currentVolume := DEFAULT_VOLUME
         , isMuted := false
         , volumeBeforeMute := DEFAULT_VOLUME
         , concurrentSoundsCount := 0 }

/-! ### The manager as a transition system

Reachability = any sequence of public operations and completion callbacks run on
the event loop starting from a freshly constructed manager. -/

/-- One event-loop task touching the manager. -/
inductive AMEvent where
  | initEv (env : InitEnv)
  | play (kt : KeyType) (a : SoundAction) (volume : ℚ) (env : PlayEnv)
  | ended (src : Nat)
  | stopAllEv
  | destroyEv
  | setVolumeEv (v : ℚ)
  | toggleMuteEv
  | setMuteEv (muted : Bool)

/-- Effect of one event on the manager state. -/
def step (s : AMState) : AMEvent → AMState
  | .initEv env => (amInit s env).1
  | .play kt a v env =>
      match playKeySound s kt a v env with
      | .ok (t, _) => t
      | .error _ => s
  | .ended src => soundEnded s src
  | .stopAllEv => stopAllSounds s
  | .destroyEv => destroy s
  | .setVolumeEv v => setVolume s v
  | .toggleMuteEv => (toggleMute s).1
  | .setMuteEv m => setMute s m

/-- Run a sequence of events. -/
def run (s : AMState) (es : List AMEvent) : AMState := es.foldl step s

/-- A state is reachable if some event sequence produces it from a fresh
manager. -/
def Reachable (s : AMState) : Prop := ∃ es : List AMEvent, run AMState.fresh es = s

/-! ### The volume/mute controller as its own little machine (for the
implicit state-machine invariant). -/

/-- One call into the volume/mute controller. -/
inductive VolOp where
  | sv (v : ℚ)
  | tm
  | sm (muted : Bool)

/-- Effect of one controller call. -/
def volStep (s : AMState) : VolOp → AMState
  | .sv v => setVolume s v
  | .tm => (toggleMute s).1
  | .sm m => setMute s m

/-- Run a sequence of controller calls. -/
def runVol (s : AMState) (ops : List VolOp) : AMState := ops.foldl volStep s

/-- Invariant of the volume/mute controller in operation (that is, on a
manager whose master gain node exists, as `initialize()` establishes):
the remembered pre-mute volume is positive, and whenever the manager is
unmuted the nominal volume is positive. -/
def VolInv (s : AMState) : Prop :=
  s.masterGainNode.isSome = true ∧
  0 < s.volumeBeforeMute ∧
  (s.isMuted = false → 0 < s.currentVolume)

/-! ### Concrete fixtures (used by witnesses and counterexamples) -/

/-- A load run in which every catalog asset loads successfully, in catalog
order. -/
def allOkEvents : List LoadEvent :=
  [⟨.press, .generic, true⟩, ⟨.press, .backspace, true⟩,
   ⟨.press, .enter, true⟩, ⟨.press, .space, true⟩,
   ⟨.release, .generic, true⟩, ⟨.release, .backspace, true⟩,
   ⟨.release, .enter, true⟩, ⟨.release, .space, true⟩]

/-- A load run in which every catalog asset fails (fetch error or
timeout), in catalog order. -/
def allFailEvents : List LoadEvent :=
  [⟨.press, .generic, false⟩, ⟨.press, .backspace, false⟩,
   ⟨.press, .enter, false⟩, ⟨.press, .space, false⟩,
   ⟨.release, .generic, false⟩, ⟨.release, .backspace, false⟩,
   ⟨.release, .enter, false⟩, ⟨.release, .space, false⟩]

/-- The manager right after a fully successful first `initialize()`. -/
def readyBase : AMState := (amInit AMState.fresh ⟨false, allOkEvents, 0⟩).1

/-- A playback environment in which the device is running and nothing
throws. -/
def benignPlay : PlayEnv := ⟨false, false, false, false⟩

/-- A load run where the `press:backspace` failure settles *before* the
`press:generic` success (fast 404 versus slow fetch); every other asset
loads fine. -/
def backspaceFailsFirst : List LoadEvent :=
  [⟨.press, .backspace, false⟩, ⟨.press, .generic, true⟩,
   ⟨.press, .enter, true⟩, ⟨.press, .space, true⟩,
   ⟨.release, .generic, true⟩, ⟨.release, .backspace, true⟩,
   ⟨.release, .enter, true⟩, ⟨.release, .space, true⟩]

/-- A load run where `press:generic` succeeds before the `press:backspace`
failure settles; every other asset loads fine. -/
def backspaceFailsAfterGeneric : List LoadEvent :=
  [⟨.press, .generic, true⟩, ⟨.press, .backspace, false⟩,
   ⟨.press, .enter, true⟩, ⟨.press, .space, true⟩,
   ⟨.release, .generic, true⟩, ⟨.release, .backspace, true⟩,
   ⟨.release, .enter, true⟩, ⟨.release, .space, true⟩]

/-! ## Helper lemmas -/

theorem clamp_of_mem (v : ℚ) (h0 : 0 ≤ v) (h1 : v ≤ 1) :
    jsMax 0 (jsMin 1 v) = v := by
  unfold jsMax jsMin
  by_cases h : (1 : ℚ) ≤ v
  · have hv : v = 1 := le_antisymm h1 h
    subst hv
    norm_num
  · rw [if_neg h, if_pos h0]

theorem clamp_nonneg (v : ℚ) : 0 ≤ jsMax 0 (jsMin 1 v) := by
  unfold jsMax jsMin
  split_ifs <;> linarith

theorem clamp_le_one (v : ℚ) : jsMax 0 (jsMin 1 v) ≤ 1 := by
  unfold jsMax jsMin
  split_ifs <;> linarith

theorem clamp_pos (v : ℚ) (h : 0 < v) : 0 < jsMax 0 (jsMin 1 v) := by
  unfold jsMax jsMin
  split_ifs <;> linarith

theorem clamp_idem (v : ℚ) :
    jsMax 0 (jsMin 1 (jsMax 0 (jsMin 1 v))) = jsMax 0 (jsMin 1 v) :=
  clamp_of_mem _ (clamp_nonneg v) (clamp_le_one v)

theorem setVolume_clamp (s : AMState) (v : ℚ) :
    setVolume s (jsMax 0 (jsMin 1 v)) = setVolume s v := by
  unfold setVolume
  rw [clamp_idem]

theorem setVolume_pos_unmuted (s : AMState) (g v : ℚ)
    (hg : s.masterGainNode = some g) (hm : s.isMuted = false)
    (h0 : 0 < v) (h1 : v ≤ 1) :
    setVolume s v = { s with currentVolume := v, masterGainNode := some v } := by
  simp only [setVolume, clamp_of_mem v h0.le h1, hg, hm]
  rw [if_neg (by simp [h0.ne']), if_neg (by simp), if_neg (by simp)]

theorem setVolume_pos_muted (s : AMState) (g v : ℚ)
    (hg : s.masterGainNode = some g) (hm : s.isMuted = true)
    (h0 : 0 < v) (h1 : v ≤ 1) :
    setVolume s v =
      { s with currentVolume := v, isMuted := false, masterGainNode := some v } := by
  simp only [setVolume, clamp_of_mem v h0.le h1, hg, hm]
  rw [if_neg (by simp [h0.ne']), if_pos (by simp [h0]), if_neg (by simp)]

theorem setVolume_zero_unmuted (s : AMState) (g : ℚ)
    (hg : s.masterGainNode = some g) (hm : s.isMuted = false) :
    setVolume s 0 =
      { s with currentVolume := 0, isMuted := true, masterGainNode := some 0 } := by
  have hc : jsMax 0 (jsMin 1 (0 : ℚ)) = 0 := clamp_of_mem 0 le_rfl (by norm_num)
  simp only [setVolume, hc, hg, hm]
  rw [if_pos (by simp), if_neg (by simp), if_pos (by simp)]

theorem setVolume_zero_muted (s : AMState) (g : ℚ)
    (hg : s.masterGainNode = some g) (hm : s.isMuted = true) :
    setVolume s 0 = { s with currentVolume := 0, masterGainNode := some 0 } := by
  have hc : jsMax 0 (jsMin 1 (0 : ℚ)) = 0 := clamp_of_mem 0 le_rfl (by norm_num)
  simp only [setVolume, hc, hg, hm]
  rw [if_neg (by simp), if_neg (by simp), if_pos (by simp)]

theorem toggleMute_unmuted_eq (s : AMState) (g : ℚ)
    (hg : s.masterGainNode = some g) (hm : s.isMuted = false) :
    toggleMute s =
      ({ s with volumeBeforeMute := s.currentVolume, currentVolume := 0,
                isMuted := true, masterGainNode := some 0 }, true) := by
  have hg' : ({ s with volumeBeforeMute := s.currentVolume } : AMState).masterGainNode
      = some g := hg
  have hm' : ({ s with volumeBeforeMute := s.currentVolume } : AMState).isMuted
      = false := hm
  have hcond : ¬(s.isMuted = true) := by
    rw [hm]
    exact Bool.false_ne_true
  unfold toggleMute
  rw [if_neg hcond, setVolume_zero_unmuted _ g hg' hm']

theorem toggleMute_muted_eq (s : AMState) (g : ℚ)
    (hg : s.masterGainNode = some g) (hm : s.isMuted = true)
    (h0 : 0 < s.volumeBeforeMute) :
    toggleMute s =
      ({ s with currentVolume := jsMax 0 (jsMin 1 s.volumeBeforeMute),
                isMuted := false,
                masterGainNode := some (jsMax 0 (jsMin 1 s.volumeBeforeMute)) },
       false) := by
  unfold toggleMute
  rw [if_pos hm, ← setVolume_clamp,
    setVolume_pos_muted s g _ hg hm (clamp_pos _ h0) (clamp_le_one _)]

/-! ## Claims -/

/-- C8: the key classifier is a total pure function (hence deterministic:
it depends only on the lower-cased `key`/`code` fields, so comparison is
case-insensitive), applies the priority order
space > enter > backspace > generic, and always falls through to the
catch-all `generic` category. -/
theorem c8_classifier_total_priority (e e' : KeyEvent) :
    (strLower e.key = strLower e'.key → strLower e.code = strLower e'.code →
      classifyKey e = classifyKey e') ∧
    ((strLower e.key = " " ∨ strLower e.code = "space") →
      classifyKey e = .space) ∧
    (¬(strLower e.key = " " ∨ strLower e.code = "space") →
      (strLower e.key = "enter" ∨ strLower e.code = "enter") →
      classifyKey e = .enter) ∧
    (¬(strLower e.key = " " ∨ strLower e.code = "space") →
      ¬(strLower e.key = "enter" ∨ strLower e.code = "enter") →
      (strLower e.key = "backspace" ∨ strLower e.code = "backspace") →
      classifyKey e = .backspace) ∧
    (¬(strLower e.key = " " ∨ strLower e.code = "space") →
      ¬(strLower e.key = "enter" ∨ strLower e.code = "enter") →
      ¬(strLower e.key = "backspace" ∨ strLower e.code = "backspace") →
      classifyKey e = .generic) := by
  refine ⟨?_, ?_, ?_, ?_, ?_⟩
  · intro hk hc
    unfold classifyKey
    rw [hk, hc]
  · intro h
    unfold classifyKey
    simp only [h, if_true, if_pos]
  · intro h1 h2
    unfold classifyKey
    simp only [h1, h2, if_false, if_true, if_pos, if_neg]
  · intro h1 h2 h3
    unfold classifyKey
    simp only [h1, h2, h3, if_false, if_true, if_pos, if_neg]
  · intro h1 h2 h3
    unfold classifyKey
    simp only [h1, h2, h3, if_false, if_neg]

/-- Witness for C8: case-insensitivity and priority at concrete inputs
(`key = "Enter"` wins over a backspace `code`, in either letter case). -/
theorem c8_classifier_total_priority_witness :
    classifyKey { key := "Enter", code := "Backspace" } =
      classifyKey { key := "eNTEr", code := "bACKSPACE" } ∧
    classifyKey { key := "Enter", code := "Backspace" } = .enter :=
  ⟨(c8_classifier_total_priority
      { key := "Enter", code := "Backspace" }
      { key := "eNTEr", code := "bACKSPACE" }).1 (by decide) (by decide),
   (c8_classifier_total_priority
      { key := "Enter", code := "Backspace" }
      { key := "Enter", code := "Backspace" }).2.2.1 (by decide) (by decide)⟩

/-- C2 (the claim is the code's own intent, but the code has a slip):
`setVolume` overwrites `this.currentVolume` with the clamped value
*before* the mute branch tries to save "the prior non-zero volume" from
`this.currentVolume`, so the ternary
`this.currentVolume > 0 ? this.currentVolume : this.volumeBeforeMute`
always sees `0` and keeps the stale `volumeBeforeMute`.  Concretely, from
a freshly initialized manager (`volumeBeforeMute = DEFAULT_VOLUME = 0.5`):
`setVolume(0.7); setVolume(0)` does set `isMuted`, but records `0.5`, not
`0.7`, and the subsequent `toggleMute()` restores `0.5`. -/
theorem c2_setVolume_zero_keeps_stale_premute :
    (setVolume (setVolume readyBase (mkRat 7 10)) 0).isMuted = true ∧
    (setVolume (setVolume readyBase (mkRat 7 10)) 0).volumeBeforeMute
      = DEFAULT_VOLUME ∧
    (setVolume (setVolume readyBase (mkRat 7 10)) 0).volumeBeforeMute
      ≠ mkRat 7 10 ∧
    getVolume (toggleMute (setVolume (setVolume readyBase (mkRat 7 10)) 0)).1
      = DEFAULT_VOLUME ∧
    getVolume (toggleMute (setVolume (setVolume readyBase (mkRat 7 10)) 0)).1
      ≠ mkRat 7 10 := by
  decide

/-- C3, counterexample to the claim as stated: muting goes through
`setVolume(0)`, which stores `0` into `currentVolume`, and `getVolume`
returns `currentVolume` — so after `setVolume(0.7); toggleMute()` the
manager is muted and `getVolume()` returns `0`, not `0.7`. -/
theorem c3_getVolume_counterexample :
    (toggleMute (setVolume readyBase (mkRat 7 10))).1.isMuted = true ∧
    getVolume (toggleMute (setVolume readyBase (mkRat 7 10))).1 = 0 ∧
    getVolume (toggleMute (setVolume readyBase (mkRat 7 10))).1 ≠ mkRat 7 10 := by
  decide

/-- C3 as amended: `getVolume()` returns the last volume stored by
`setVolume` — which is the muted effective `0` after `toggleMute()`,
because muting routes through `setVolume(0)`.  The nominal pre-mute volume
is remembered in `volumeBeforeMute` instead, and the next `toggleMute()`
restores it: for every state with a master gain node, unmuted, and
`v ∈ (0,1]`, after `setVolume(v)` `getVolume()` is `v`; after the first
`toggleMute()` `getVolume()` is `0` while `volumeBeforeMute` is `v`; after
a second `toggleMute()` `getVolume()` is `v` again. -/
theorem c3_getVolume_amended (s : AMState) (g v : ℚ)
    (hg : s.masterGainNode = some g) (hm : s.isMuted = false)
    (h0 : 0 < v) (h1 : v ≤ 1) :
    getVolume (setVolume s v) = v ∧
    getVolume (toggleMute (setVolume s v)).1 = 0 ∧
    (toggleMute (setVolume s v)).1.volumeBeforeMute = v ∧
    getVolume (toggleMute (toggleMute (setVolume s v)).1).1 = v := by
  have hA := setVolume_pos_unmuted s g v hg hm h0 h1
  have hB := toggleMute_unmuted_eq
    ({ s with currentVolume := v, masterGainNode := some v }) v rfl hm
  rw [hA, hB]
  refine ⟨rfl, rfl, rfl, ?_⟩
  have hC := toggleMute_muted_eq
    ({ s with volumeBeforeMute := v, currentVolume := 0,
              isMuted := true, masterGainNode := some 0 }) 0 rfl rfl h0
  rw [hC]
  show jsMax 0 (jsMin 1 v) = v
  exact clamp_of_mem v h0.le h1

/-- Witness for the amended C3 at `v = 0.7` on a freshly initialized
manager. -/
theorem c3_getVolume_amended_witness :
    getVolume (setVolume readyBase (mkRat 7 10)) = mkRat 7 10 ∧
    getVolume (toggleMute (setVolume readyBase (mkRat 7 10))).1 = 0 ∧
    (toggleMute (setVolume readyBase (mkRat 7 10))).1.volumeBeforeMute
      = mkRat 7 10 ∧
    getVolume
      (toggleMute (toggleMute (setVolume readyBase (mkRat 7 10))).1).1
      = mkRat 7 10 :=
  c3_getVolume_amended readyBase DEFAULT_VOLUME (mkRat 7 10)
    (by decide) (by decide) (by decide) (by decide)

/-- C4: for every `v ∈ (0,1]`, from any unmuted state with a master gain
node, `setVolume(v); toggleMute(); toggleMute()` is a round trip:
`getVolume()` is `v` again, the manager is unmuted, and the effective
master gain is back to `v`; each `toggleMute()` returns the resulting mute
flag (`true` after the first, `false` after the second). -/
theorem c4_volume_mute_roundtrip (s : AMState) (g v : ℚ)
    (hg : s.masterGainNode = some g) (hm : s.isMuted = false)
    (h0 : 0 < v) (h1 : v ≤ 1) :
    (toggleMute (setVolume s v)).2 = true ∧
    (toggleMute (setVolume s v)).1.isMuted = true ∧
    (toggleMute (toggleMute (setVolume s v)).1).2 = false ∧
    (toggleMute (toggleMute (setVolume s v)).1).1.isMuted = false ∧
    getVolume (toggleMute (toggleMute (setVolume s v)).1).1 = v ∧
    (toggleMute (toggleMute (setVolume s v)).1).1.masterGainNode = some v := by
  have hA := setVolume_pos_unmuted s g v hg hm h0 h1
  have hB := toggleMute_unmuted_eq
    ({ s with currentVolume := v, masterGainNode := some v }) v rfl hm
  have hC := toggleMute_muted_eq
    ({ s with volumeBeforeMute := v, currentVolume := 0,
              isMuted := true, masterGainNode := some 0 }) 0 rfl rfl h0
  rw [hA, hB]
  refine ⟨rfl, rfl, ?_⟩
  rw [hC]
  refine ⟨rfl, rfl, ?_, ?_⟩
  · show jsMax 0 (jsMin 1 v) = v
    exact clamp_of_mem v h0.le h1
  · show some (jsMax 0 (jsMin 1 v)) = some v
    rw [clamp_of_mem v h0.le h1]

/-- Witness for C4 at `v = 0.7` on a freshly initialized manager. -/
theorem c4_volume_mute_roundtrip_witness :
    (toggleMute (setVolume readyBase (mkRat 7 10))).2 = true ∧
    (toggleMute (setVolume readyBase (mkRat 7 10))).1.isMuted = true ∧
    (toggleMute (toggleMute (setVolume readyBase (mkRat 7 10))).1).2 = false ∧
    (toggleMute (toggleMute (setVolume readyBase (mkRat 7 10))).1).1.isMuted
      = false ∧
    getVolume (toggleMute (toggleMute (setVolume readyBase (mkRat 7 10))).1).1
      = mkRat 7 10 ∧
    (toggleMute
      (toggleMute (setVolume readyBase (mkRat 7 10))).1).1.masterGainNode
      = some (mkRat 7 10) :=
  c4_volume_mute_roundtrip readyBase DEFAULT_VOLUME (mkRat 7 10)
    (by decide) (by decide) (by decide) (by decide)

theorem volInv_setVolume (s : AMState) (v : ℚ) (h : VolInv s) :
    VolInv (setVolume s v) := by
  obtain ⟨hg0, hvbm, hcv⟩ := h
  obtain ⟨g, hg⟩ := Option.isSome_iff_exists.mp hg0
  rw [← setVolume_clamp]
  rcases eq_or_lt_of_le (clamp_nonneg v) with h0 | h0
  · rw [← h0]
    cases hmu : s.isMuted
    · rw [setVolume_zero_unmuted s g hg hmu]
      exact ⟨rfl, hvbm, fun hff => absurd hff (by simp)⟩
    · rw [setVolume_zero_muted s g hg hmu]
      refine ⟨rfl, hvbm, fun hff => ?_⟩
      rw [show ({ s with currentVolume := 0, masterGainNode := some 0 }
            : AMState).isMuted = s.isMuted from rfl, hmu] at hff
      exact absurd hff (by simp)
  · cases hmu : s.isMuted
    · rw [setVolume_pos_unmuted s g _ hg hmu h0 (clamp_le_one v)]
      exact ⟨rfl, hvbm, fun _ => h0⟩
    · rw [setVolume_pos_muted s g _ hg hmu h0 (clamp_le_one v)]
      exact ⟨rfl, hvbm, fun _ => h0⟩

theorem volInv_toggleMute (s : AMState) (h : VolInv s) :
    VolInv (toggleMute s).1 := by
  obtain ⟨hg0, hvbm, hcv⟩ := h
  obtain ⟨g, hg⟩ := Option.isSome_iff_exists.mp hg0
  cases hmu : s.isMuted
  · rw [toggleMute_unmuted_eq s g hg hmu]
    exact ⟨rfl, hcv hmu, fun hff => absurd hff (by simp)⟩
  · rw [toggleMute_muted_eq s g hg hmu hvbm]
    exact ⟨rfl, hvbm, fun _ => clamp_pos _ hvbm⟩

theorem volInv_setMute (s : AMState) (m : Bool) (h : VolInv s) :
    VolInv (setMute s m) := by
  obtain ⟨hg0, hvbm, hcv⟩ := h
  obtain ⟨g, hg⟩ := Option.isSome_iff_exists.mp hg0
  unfold setMute
  split_ifs with h1 h2
  · have hg' : ({ s with volumeBeforeMute := s.currentVolume }
        : AMState).masterGainNode = some g := hg
    have hm' : ({ s with volumeBeforeMute := s.currentVolume }
        : AMState).isMuted = false := h1.2
    rw [setVolume_zero_unmuted _ g hg' hm']
    exact ⟨rfl, hcv h1.2, fun hff => absurd hff (by simp)⟩
  · rw [← setVolume_clamp,
      setVolume_pos_muted s g _ hg h2.2 (clamp_pos _ hvbm) (clamp_le_one _)]
    exact ⟨rfl, hvbm, fun _ => clamp_pos _ hvbm⟩
  · exact ⟨hg0, hvbm, hcv⟩

theorem volInv_volStep (s : AMState) (op : VolOp) (h : VolInv s) :
    VolInv (volStep s op) := by
  cases op with
  | sv v => exact volInv_setVolume s v h
  | tm => exact volInv_toggleMute s h
  | sm m => exact volInv_setMute s m h

theorem volInv_runVol (s : AMState) (ops : List VolOp) (h : VolInv s) :
    VolInv (runVol s ops) := by
  induction ops generalizing s with
  | nil => exact h
  | cons op rest ih => exact ih _ (volInv_volStep s op h)

theorem volInv_readyBase : VolInv readyBase :=
  ⟨by decide, by decide, fun _ => by decide⟩

/-- C10 (implicit invariant of the volume/mute state machine, taken — as
the fields only exist in operation — on the controller of an initialized
manager, i.e. starting right after `initialize()`: unmuted, volume at the
default 0.5, master gain node present): every sequence of `setVolume`,
`toggleMute` and `setMute` calls (with arbitrary rational arguments, which
subsumes the claim's `[0,1]` arguments since `setVolume` clamps) preserves
(a) `volumeBeforeMute > 0` and (b) unmuted → `currentVolume > 0`; as a
consequence, `toggleMute()` in any reachable muted state restores a
strictly positive volume and actually unmutes — the controller cannot get
stuck muted. -/
theorem c10_volume_machine_invariant (ops : List VolOp) :
    (0 < (runVol readyBase ops).volumeBeforeMute ∧
      ((runVol readyBase ops).isMuted = false →
        0 < (runVol readyBase ops).currentVolume)) ∧
    ((runVol readyBase ops).isMuted = true →
      (toggleMute (runVol readyBase ops)).1.isMuted = false ∧
      0 < (toggleMute (runVol readyBase ops)).1.currentVolume) := by
  have hInv : VolInv (runVol readyBase ops) :=
    volInv_runVol readyBase ops volInv_readyBase
  refine ⟨⟨hInv.2.1, hInv.2.2⟩, fun hmu => ?_⟩
  obtain ⟨g, hg⟩ := Option.isSome_iff_exists.mp hInv.1
  rw [toggleMute_muted_eq _ g hg hmu hInv.2.1]
  exact ⟨rfl, clamp_pos _ hInv.2.1⟩

/-- Witness for C10 on the call sequence `setVolume(0)` (which mutes), so
both the invariant and the unmute consequence are exercised concretely. -/
theorem c10_volume_machine_invariant_witness :
    (0 < (runVol readyBase [VolOp.sv 0]).volumeBeforeMute ∧
      ((runVol readyBase [VolOp.sv 0]).isMuted = false →
        0 < (runVol readyBase [VolOp.sv 0]).currentVolume)) ∧
    ((runVol readyBase [VolOp.sv 0]).isMuted = true →
      (toggleMute (runVol readyBase [VolOp.sv 0])).1.isMuted = false ∧
      0 < (toggleMute (runVol readyBase [VolOp.sv 0])).1.currentVolume) :=
  c10_volume_machine_invariant [VolOp.sv 0]

theorem handleLoadEvent_frame (s : AMState) (e : LoadEvent) :
    (handleLoadEvent s e).activeSourceNodes = s.activeSourceNodes ∧
    (handleLoadEvent s e).concurrentSoundsCount = s.concurrentSoundsCount ∧
    (handleLoadEvent s e).masterGainNode = s.masterGainNode ∧
    (handleLoadEvent s e).isMuted = s.isMuted ∧
    (handleLoadEvent s e).isInitialized = s.isInitialized ∧
    (handleLoadEvent s e).preloadingPromiseSet = s.preloadingPromiseSet ∧
    (handleLoadEvent s e).currentVolume = s.currentVolume ∧
    (handleLoadEvent s e).volumeBeforeMute = s.volumeBeforeMute ∧
    (handleLoadEvent s e).gainNodePool = s.gainNodePool ∧
    (handleLoadEvent s e).preloadStartTime = s.preloadStartTime ∧
    (handleLoadEvent s e).totalFiles = s.totalFiles ∧
    (handleLoadEvent s e).audioContext.isSome = s.audioContext.isSome := by
  unfold handleLoadEvent storeBuffer loadFallbackBuffer
  dsimp only
  repeat' split
  all_goals refine ⟨rfl, rfl, rfl, rfl, rfl, rfl, rfl, rfl, rfl, rfl, rfl, ?_⟩
  all_goals (cases s.audioContext <;> rfl)

theorem preloadFold_frame (evs : List LoadEvent) (s : AMState) :
    ((evs.foldl handleLoadEvent s).activeSourceNodes = s.activeSourceNodes ∧
     (evs.foldl handleLoadEvent s).concurrentSoundsCount = s.concurrentSoundsCount ∧
     (evs.foldl handleLoadEvent s).masterGainNode = s.masterGainNode ∧
     (evs.foldl handleLoadEvent s).isMuted = s.isMuted ∧
     (evs.foldl handleLoadEvent s).isInitialized = s.isInitialized ∧
     (evs.foldl handleLoadEvent s).preloadingPromiseSet = s.preloadingPromiseSet ∧
     (evs.foldl handleLoadEvent s).currentVolume = s.currentVolume ∧
     (evs.foldl handleLoadEvent s).volumeBeforeMute = s.volumeBeforeMute ∧
     (evs.foldl handleLoadEvent s).gainNodePool = s.gainNodePool ∧
     (evs.foldl handleLoadEvent s).audioContext.isSome = s.audioContext.isSome) := by
  induction evs generalizing s with
  | nil => exact ⟨rfl, rfl, rfl, rfl, rfl, rfl, rfl, rfl, rfl, rfl⟩
  | cons e rest ih =>
      obtain ⟨h1, h2, h3, h4, h5, h6, h7, h8, h9, _, _, h12⟩ := handleLoadEvent_frame s e
      obtain ⟨g1, g2, g3, g4, g5, g6, g7, g8, g9, g12⟩ := ih (handleLoadEvent s e)
      exact ⟨g1.trans h1, g2.trans h2, g3.trans h3, g4.trans h4, g5.trans h5,
        g6.trans h6, g7.trans h7, g8.trans h8, g9.trans h9, g12.trans h12⟩

theorem setVolume_frame (s : AMState) (v : ℚ) :
    (setVolume s v).activeSourceNodes = s.activeSourceNodes ∧
    (setVolume s v).concurrentSoundsCount = s.concurrentSoundsCount := by
  unfold setVolume
  dsimp only
  repeat' split
  all_goals exact ⟨rfl, rfl⟩


theorem preloadSounds_frame (s : AMState) (evs : List LoadEvent) (now : ℚ) :
    (preloadSounds s evs now).1.activeSourceNodes = s.activeSourceNodes ∧
    (preloadSounds s evs now).1.concurrentSoundsCount = s.concurrentSoundsCount ∧
    (preloadSounds s evs now).1.masterGainNode = s.masterGainNode ∧
    (preloadSounds s evs now).1.isMuted = s.isMuted ∧
    (preloadSounds s evs now).1.isInitialized = s.isInitialized ∧
    (preloadSounds s evs now).1.currentVolume = s.currentVolume ∧
    (preloadSounds s evs now).1.volumeBeforeMute = s.volumeBeforeMute ∧
    (preloadSounds s evs now).1.gainNodePool = s.gainNodePool ∧
    (preloadSounds s evs now).1.audioContext.isSome = s.audioContext.isSome := by
  unfold preloadSounds
  dsimp only
  split
  · exact ⟨rfl, rfl, rfl, rfl, rfl, rfl, rfl, rfl, rfl⟩
  · obtain ⟨h1, h2, h3, h4, h5, _, h7, h8, h9, h12⟩ := preloadFold_frame evs
      { s with preloadStartTime := now, totalFiles := 8, loadedFiles := 0,
               failedFiles := 0, preloadingPromiseSet := true }
    split
    · exact ⟨h1, h2, h3, h4, h5, h7, h8, h9, h12⟩
    · exact ⟨h1, h2, h3, h4, h5, h7, h8, h9, h12⟩

theorem amInit_frame (s : AMState) (env : InitEnv) :
    (amInit s env).1.activeSourceNodes = s.activeSourceNodes ∧
    (amInit s env).1.concurrentSoundsCount = s.concurrentSoundsCount ∧
    (amInit s env).1.isMuted = s.isMuted ∧
    (amInit s env).1.currentVolume = s.currentVolume ∧
    (amInit s env).1.volumeBeforeMute = s.volumeBeforeMute := by
  unfold amInit
  dsimp only
  split
  · exact ⟨rfl, rfl, rfl, rfl, rfl⟩
  split
  · exact ⟨rfl, rfl, rfl, rfl, rfl⟩
  · rename_i h1 h2
    split
    · rename_i s' err heq
      have h := preloadSounds_frame
        { s with audioContext := some [], masterGainNode := some DEFAULT_VOLUME,
                 gainNodePool :=
                   if MAX_CONCURRENT_SOUNDS ≤ 5 then MAX_CONCURRENT_SOUNDS else 5 }
        env.loadEvents env.now
      rw [heq] at h
      exact ⟨h.1, h.2.1, h.2.2.2.1, h.2.2.2.2.2.1, h.2.2.2.2.2.2.1⟩
    · rename_i s' heq
      have h := preloadSounds_frame
        { s with audioContext := some [], masterGainNode := some DEFAULT_VOLUME,
                 gainNodePool :=
                   if MAX_CONCURRENT_SOUNDS ≤ 5 then MAX_CONCURRENT_SOUNDS else 5 }
        env.loadEvents env.now
      rw [heq] at h
      exact ⟨h.1, h.2.1, h.2.2.2.1, h.2.2.2.2.2.1, h.2.2.2.2.2.2.1⟩


theorem playKeySound_cases (s : AMState) (kt : KeyType) (a : SoundAction)
    (v : ℚ) (env : PlayEnv) :
    (∃ b, playKeySound s kt a v env =
        .ok ({ s with
          gainNodePool := acquireGainNode (acquireGainNode s.gainNodePool),
          activeSourceNodes := freshSourceId s :: s.activeSourceNodes,
          concurrentSoundsCount := s.concurrentSoundsCount + 1 }, b) ∧
      s.concurrentSoundsCount < MAX_CONCURRENT_SOUNDS) ∨
    (∃ t, playKeySound s kt a v env = .ok (t, none) ∧
      t.activeSourceNodes = s.activeSourceNodes ∧
      t.concurrentSoundsCount = s.concurrentSoundsCount) := by
  unfold playKeySound
  dsimp only
  split
  · exact Or.inr ⟨s, rfl, rfl, rfl⟩
  split
  · exact Or.inr ⟨s, rfl, rfl, rfl⟩
  split
  · exact Or.inr ⟨s, rfl, rfl, rfl⟩
  rename_i hg1 hg2 hcan
  split
  · exact Or.inr ⟨s, rfl, rfl, rfl⟩
  have hlt : s.concurrentSoundsCount < MAX_CONCURRENT_SOUNDS := by
    simp [canPlayConcurrentSound] at hcan
    exact hcan
  split
  · exact Or.inr ⟨s, rfl, rfl, rfl⟩
  · split
    · exact Or.inr ⟨_, rfl, rfl, rfl⟩
    · split
      · exact Or.inl ⟨none, rfl, hlt⟩
      · exact Or.inl ⟨_, rfl, hlt⟩

theorem step_bound (s : AMState) (e : AMEvent)
    (h1 : s.concurrentSoundsCount = s.activeSourceNodes.length)
    (h2 : s.activeSourceNodes.length ≤ MAX_CONCURRENT_SOUNDS) :
    (step s e).concurrentSoundsCount = (step s e).activeSourceNodes.length ∧
    (step s e).activeSourceNodes.length ≤ MAX_CONCURRENT_SOUNDS := by
  cases e with
  | initEv env =>
      obtain ⟨ha, hc, _⟩ := amInit_frame s env
      refine ⟨?_, ?_⟩
      · show (amInit s env).1.concurrentSoundsCount
            = (amInit s env).1.activeSourceNodes.length
        rw [hc, ha]
        exact h1
      · show (amInit s env).1.activeSourceNodes.length ≤ MAX_CONCURRENT_SOUNDS
        rw [ha]
        exact h2
  | play kt a v env =>
      rcases playKeySound_cases s kt a v env with ⟨b, heq, hlt⟩ | ⟨t, heq, ha, hc⟩
      · simp only [step, heq]
        constructor
        · show s.concurrentSoundsCount + 1
              = (freshSourceId s :: s.activeSourceNodes).length
          rw [List.length_cons, h1]
        · show (freshSourceId s :: s.activeSourceNodes).length
              ≤ MAX_CONCURRENT_SOUNDS
          rw [List.length_cons, ← h1]
          omega
      · simp only [step, heq]
        refine ⟨?_, ?_⟩
        · rw [hc, ha]
          exact h1
        · rw [ha]
          exact h2
  | ended src =>
      simp only [step]
      unfold soundEnded
      split
      · rename_i hmem
        constructor
        · show s.concurrentSoundsCount - 1
              = (s.activeSourceNodes.erase src).length
          rw [List.length_erase_of_mem hmem, h1]
        · show (s.activeSourceNodes.erase src).length ≤ MAX_CONCURRENT_SOUNDS
          rw [List.length_erase_of_mem hmem]
          omega
      · exact ⟨h1, h2⟩
  | stopAllEv => exact ⟨rfl, Nat.zero_le _⟩
  | destroyEv => exact ⟨rfl, Nat.zero_le _⟩
  | setVolumeEv v =>
      obtain ⟨ha, hc⟩ := setVolume_frame s v
      refine ⟨?_, ?_⟩
      · show (setVolume s v).concurrentSoundsCount
            = (setVolume s v).activeSourceNodes.length
        rw [hc, ha]
        exact h1
      · show (setVolume s v).activeSourceNodes.length ≤ MAX_CONCURRENT_SOUNDS
        rw [ha]
        exact h2
  | toggleMuteEv =>
      simp only [step]
      unfold toggleMute
      dsimp only
      split
      · obtain ⟨ha, hc⟩ := setVolume_frame s s.volumeBeforeMute
        refine ⟨by rw [hc, ha]; exact h1, by rw [ha]; exact h2⟩
      · obtain ⟨ha, hc⟩ :=
          setVolume_frame { s with volumeBeforeMute := s.currentVolume } 0
        refine ⟨by rw [hc, ha]; exact h1, by rw [ha]; exact h2⟩
  | setMuteEv m =>
      simp only [step]
      unfold setMute
      split
      · obtain ⟨ha, hc⟩ :=
          setVolume_frame { s with volumeBeforeMute := s.currentVolume } 0
        refine ⟨by rw [hc, ha]; exact h1, by rw [ha]; exact h2⟩
      split
      · obtain ⟨ha, hc⟩ := setVolume_frame s s.volumeBeforeMute
        refine ⟨by rw [hc, ha]; exact h1, by rw [ha]; exact h2⟩
      · exact ⟨h1, h2⟩

theorem reachable_bound (s : AMState) (h : Reachable s) :
    s.concurrentSoundsCount = s.activeSourceNodes.length ∧
    s.activeSourceNodes.length ≤ MAX_CONCURRENT_SOUNDS := by
  obtain ⟨es, rfl⟩ := h
  suffices H : ∀ (es : List AMEvent) (s0 : AMState),
      s0.concurrentSoundsCount = s0.activeSourceNodes.length →
      s0.activeSourceNodes.length ≤ MAX_CONCURRENT_SOUNDS →
      (run s0 es).concurrentSoundsCount = (run s0 es).activeSourceNodes.length ∧
      (run s0 es).activeSourceNodes.length ≤ MAX_CONCURRENT_SOUNDS by
    exact H es AMState.fresh rfl (by decide)
  intro es
  induction es with
  | nil => exact fun s0 ha hb => ⟨ha, hb⟩
  | cons e rest ih =>
      intro s0 ha hb
      obtain ⟨ha', hb'⟩ := step_bound s0 e ha hb
      exact ih (step s0 e) ha' hb'


/-- C1: in every reachable state of the manager (any event sequence from a
fresh manager: initializations, plays, natural completions, force-stops,
destroys, volume calls) the set of simultaneously active one-shot sources
never exceeds `MAX_CONCURRENT_SOUNDS` (= 10, the `maxPoolSize`); and once
the concurrent-sound counter has reached the maximum and no sound has
completed, any `playKeySound` call is a silent no-op returning the state
unchanged — the request is dropped, not queued. -/
theorem c1_concurrency_bound (s : AMState) (h : Reachable s) :
    s.activeSourceNodes.length ≤ MAX_CONCURRENT_SOUNDS ∧
    (s.concurrentSoundsCount = MAX_CONCURRENT_SOUNDS →
      ∀ (kt : KeyType) (a : SoundAction) (v : ℚ) (env : PlayEnv),
        playKeySound s kt a v env = .ok (s, none)) := by
  obtain ⟨hcnt, hlen⟩ := reachable_bound s h
  refine ⟨hlen, fun hfull kt a v env => ?_⟩
  have hcan : canPlayConcurrentSound s = false := by
    simp [canPlayConcurrentSound, hfull]
  unfold playKeySound
  dsimp only
  split
  · rfl
  split
  · rfl
  split
  · rfl
  · rename_i hg3
    rw [hcan] at hg3
    simp at hg3

/-- Witness for C1 at the reachable fresh state (empty event sequence). -/
theorem c1_concurrency_bound_witness :
    AMState.fresh.activeSourceNodes.length ≤ MAX_CONCURRENT_SOUNDS ∧
    (AMState.fresh.concurrentSoundsCount = MAX_CONCURRENT_SOUNDS →
      ∀ (kt : KeyType) (a : SoundAction) (v : ℚ) (env : PlayEnv),
        playKeySound AMState.fresh kt a v env = .ok (AMState.fresh, none)) :=
  c1_concurrency_bound AMState.fresh ⟨[], rfl⟩

/-- C7: `playKeySound` never raises to the caller — for every state,
input and playback environment the call returns `.ok`.  Moreover on each
of the guard paths (not initialized, muted, concurrent limit reached,
suspended device whose resume fails, no buffer registered under the key)
the call silently returns with the state unchanged and nothing played, and
when the audio-graph construction or `source.start` throws, the exception
is caught and nothing is played — the next call gets a fresh attempt. -/
theorem c7_play_never_throws (s : AMState) (kt : KeyType) (a : SoundAction)
    (v : ℚ) (env : PlayEnv) :
    (∃ t, playKeySound s kt a v env = Except.ok t) ∧
    ((!s.isInitialized || !s.audioContext.isSome || !s.masterGainNode.isSome)
        = true ∨
      s.isMuted = true ∨
      canPlayConcurrentSound s = false ∨
      (env.suspended && env.resumeFails) = true ∨
      resolvedBuffer s kt a = none →
      playKeySound s kt a v env = .ok (s, none)) ∧
    ((env.connectThrows = true ∨ env.startThrows = true) →
      ∃ t, playKeySound s kt a v env = .ok (t, none)) := by
  refine ⟨?_, ?_, ?_⟩
  · rcases playKeySound_cases s kt a v env with ⟨b, heq, _⟩ | ⟨t, heq, _, _⟩
    · exact ⟨_, heq⟩
    · exact ⟨_, heq⟩
  · intro h
    unfold playKeySound
    dsimp only
    split
    · rfl
    split
    · rfl
    split
    · rfl
    split
    · rfl
    rename_i hg1 hg2 hg3 hg4
    split
    · rfl
    · rename_i b heq
      exfalso
      rcases h with h | h | h | h | h
      · exact hg1 h
      · exact hg2 h
      · rw [h] at hg3
        simp at hg3
      · exact hg4 h
      · rw [heq] at h
        exact Option.noConfusion h
  · intro h
    unfold playKeySound
    dsimp only
    split
    · exact ⟨s, rfl⟩
    split
    · exact ⟨s, rfl⟩
    split
    · exact ⟨s, rfl⟩
    split
    · exact ⟨s, rfl⟩
    split
    · exact ⟨s, rfl⟩
    · split
      · exact ⟨_, rfl⟩
      · split
        · exact ⟨_, rfl⟩
        · rename_i hct hst
          rcases h with h | h
          · exact absurd h hct
          · exact absurd h hst

/-- Witness for C7 on a fresh (uninitialized) manager in a benign
environment. -/
theorem c7_play_never_throws_witness :
    (∃ t, playKeySound AMState.fresh .generic .press 1 benignPlay
        = Except.ok t) ∧
    ((!AMState.fresh.isInitialized || !AMState.fresh.audioContext.isSome ||
        !AMState.fresh.masterGainNode.isSome) = true ∨
      AMState.fresh.isMuted = true ∨
      canPlayConcurrentSound AMState.fresh = false ∨
      (benignPlay.suspended && benignPlay.resumeFails) = true ∨
      resolvedBuffer AMState.fresh .generic .press = none →
      playKeySound AMState.fresh .generic .press 1 benignPlay
        = .ok (AMState.fresh, none)) ∧
    ((benignPlay.connectThrows = true ∨ benignPlay.startThrows = true) →
      ∃ t, playKeySound AMState.fresh .generic .press 1 benignPlay
        = .ok (t, none)) :=
  c7_play_never_throws AMState.fresh .generic .press 1 benignPlay


theorem bmSet_ne_nil (m : BufMap) (k : String) (v : Nat) : bmSet m k v ≠ [] := by
  cases m with
  | nil => simp [bmSet]
  | cons p rest =>
      unfold bmSet
      split <;> simp

theorem handleLoadEvent_fail_nil (s : AMState) (e : LoadEvent)
    (hs : e.success = false) (hb : s.audioBuffers = []) :
    (handleLoadEvent s e).audioBuffers = [] ∧
    (handleLoadEvent s e).loadedFiles = s.loadedFiles := by
  have hsf : shouldUseFallback { s with failedFiles := s.failedFiles + 1 }
      e.action e.keyType.toStr = false := by
    unfold shouldUseFallback
    rw [show ({ s with failedFiles := s.failedFiles + 1 } : AMState).audioBuffers
        = s.audioBuffers from rfl, hb]
    simp [bmGet]
  unfold handleLoadEvent
  dsimp only
  rw [if_neg (by rw [hs]; exact Bool.false_ne_true),
    if_neg (by rw [hsf]; simp)]
  exact ⟨hb, rfl⟩

theorem allFail_fold (evs : List LoadEvent) (s : AMState)
    (hall : ∀ e ∈ evs, e.success = false) (hb : s.audioBuffers = []) :
    (evs.foldl handleLoadEvent s).audioBuffers = [] ∧
    (evs.foldl handleLoadEvent s).loadedFiles = s.loadedFiles := by
  induction evs generalizing s with
  | nil => exact ⟨hb, rfl⟩
  | cons e rest ih =>
      obtain ⟨hb', hl'⟩ := handleLoadEvent_fail_nil s e (hall e (by simp)) hb
      obtain ⟨hb'', hl''⟩ := ih (handleLoadEvent s e)
        (fun x hx => hall x (by simp [hx])) hb'
      exact ⟨hb'', hl''.trans hl'⟩

theorem handleLoadEvent_buffers_cases (s : AMState) (e : LoadEvent) :
    ((handleLoadEvent s e).loadedFiles = s.loadedFiles ∧
      (handleLoadEvent s e).audioBuffers = s.audioBuffers) ∨
    (handleLoadEvent s e).audioBuffers ≠ [] := by
  unfold handleLoadEvent storeBuffer loadFallbackBuffer
  dsimp only
  split
  · exact Or.inr (bmSet_ne_nil _ _ _)
  · split
    · split
      · exact Or.inr (bmSet_ne_nil _ _ _)
      · exact Or.inl ⟨rfl, rfl⟩
    · exact Or.inl ⟨rfl, rfl⟩

theorem buffers_nonempty_mono (evs : List LoadEvent) (s : AMState)
    (hb : s.audioBuffers ≠ []) :
    (evs.foldl handleLoadEvent s).audioBuffers ≠ [] := by
  induction evs generalizing s with
  | nil => exact hb
  | cons e rest ih =>
      rcases handleLoadEvent_buffers_cases s e with ⟨_, hbuf⟩ | hne
      · exact ih _ (hbuf ▸ hb)
      · exact ih _ hne

theorem loadedFiles_growth_nonempty (evs : List LoadEvent) (s : AMState)
    (h : s.loadedFiles < (evs.foldl handleLoadEvent s).loadedFiles) :
    (evs.foldl handleLoadEvent s).audioBuffers ≠ [] := by
  induction evs generalizing s with
  | nil => exact absurd h (lt_irrefl _)
  | cons e rest ih =>
      rcases handleLoadEvent_buffers_cases s e with ⟨hl, _⟩ | hne
      · exact ih (handleLoadEvent s e) (hl ▸ h)
      · exact buffers_nonempty_mono rest _ hne


/-- C6: if every asset load fails, `initialize()` fails with the
NoBuffersLoaded error (`'Failed to load any audio files'`) propagated to
the caller and `isReady()` is false afterwards; conversely, whenever
`initialize()` returns without error from a fresh manager, `isReady()` is
true and `getPreloadingStats().loadedFiles ≥ 1`. -/
theorem c6_no_buffers_and_readiness (env : InitEnv) (t : ℚ) :
    (env.contextFails = false →
      (∀ e ∈ env.loadEvents, e.success = false) →
      (amInit AMState.fresh env).2 = some AMError.noBuffersLoaded ∧
      isReady (amInit AMState.fresh env).1 = false) ∧
    ((amInit AMState.fresh env).2 = none →
      isReady (amInit AMState.fresh env).1 = true ∧
      1 ≤ (getPreloadingStats (amInit AMState.fresh env).1 t).loadedFiles) := by
  constructor
  · intro hcf hall
    unfold amInit
    rw [if_neg (show ¬(AMState.fresh.isInitialized = true) from
      Bool.false_ne_true)]
    rw [if_neg (by rw [hcf]; exact Bool.false_ne_true)]
    unfold preloadSounds
    dsimp only
    set sB : AMState :=
      { AMState.fresh with
        audioContext := some []
        preloadingPromiseSet := true
        masterGainNode := some DEFAULT_VOLUME
        preloadStartTime := env.now
        totalFiles := 8
        loadedFiles := 0
        failedFiles := 0
        gainNodePool :=
          if MAX_CONCURRENT_SOUNDS ≤ 5 then MAX_CONCURRENT_SOUNDS else 5 }
      with hsB
    rw [if_pos ((allFail_fold env.loadEvents sB hall rfl).2)]
    dsimp only
    constructor
    · rfl
    · have hinit : (List.foldl handleLoadEvent sB env.loadEvents).isInitialized
          = false := ((preloadFold_frame env.loadEvents sB).2.2.2.2.1).trans rfl
      simp [isReady, hinit]
  · intro hok
    unfold amInit at hok ⊢
    rw [if_neg (show ¬(AMState.fresh.isInitialized = true) from
      Bool.false_ne_true)] at hok ⊢
    by_cases hcf : env.contextFails = true
    · rw [if_pos hcf] at hok
      simp at hok
    · rw [if_neg hcf] at hok ⊢
      unfold preloadSounds at hok ⊢
      dsimp only at hok ⊢
      set sB : AMState :=
        { AMState.fresh with
          audioContext := some []
          preloadingPromiseSet := true
          masterGainNode := some DEFAULT_VOLUME
          preloadStartTime := env.now
          totalFiles := 8
          loadedFiles := 0
          failedFiles := 0
          gainNodePool :=
            if MAX_CONCURRENT_SOUNDS ≤ 5 then MAX_CONCURRENT_SOUNDS else 5 }
        with hsB
      by_cases hz :
          (List.foldl handleLoadEvent sB env.loadEvents).loadedFiles = 0
      · rw [if_pos hz] at hok
        simp at hok
      · rw [if_neg hz]
        dsimp only
        have hframe := preloadFold_frame env.loadEvents sB
        have hctx : (List.foldl handleLoadEvent sB env.loadEvents).audioContext.isSome
            = true := (hframe.2.2.2.2.2.2.2.2.2).trans rfl
        have hpps : (List.foldl handleLoadEvent sB env.loadEvents).preloadingPromiseSet
            = true := (hframe.2.2.2.2.2.1).trans rfl
        have hld : 0 < (List.foldl handleLoadEvent sB env.loadEvents).loadedFiles :=
          Nat.pos_of_ne_zero hz
        have hbuf := loadedFiles_growth_nonempty env.loadEvents sB hld
        have hlen := List.length_pos.mpr hbuf
        constructor
        · simp [isReady, hctx, hpps, hld, hlen]
        · simp [getPreloadingStats]
          omega


theorem bmGet_bmSet_self (m : BufMap) (k : String) (v : Nat) :
    bmGet (bmSet m k v) k = some v := by
  induction m with
  | nil => simp [bmSet, bmGet]
  | cons p rest ih =>
      unfold bmSet
      split
      · simp [bmGet]
      · rename_i hne
        unfold bmGet
        rw [if_neg hne]
        exact ih

theorem bmGet_bmSet_ne (m : BufMap) (k k' : String) (v : Nat) (h : k' ≠ k) :
    bmGet (bmSet m k' v) k = bmGet m k := by
  induction m with
  | nil => simp [bmSet, bmGet, h]
  | cons p rest ih =>
      unfold bmSet
      split
      · rename_i ha
        unfold bmGet
        rw [if_neg h, if_neg (show ¬(p.1 = k) from fun hh => h (ha ▸ hh))]
      · unfold bmGet
        split
        · rfl
        · exact ih

theorem bmGet_mem_keys (m : BufMap) (k : String) (v : Nat)
    (h : bmGet m k = some v) : k ∈ bmKeys m := by
  induction m with
  | nil => exact absurd h (by simp [bmGet])
  | cons p rest ih =>
      unfold bmGet at h
      by_cases ha : p.1 = k
      · exact ha ▸ List.mem_cons_self p.1 (bmKeys rest)
      · rw [if_neg ha] at h
        exact List.mem_cons_of_mem _ (ih h)

theorem handleLoadEvent_get (s : AMState) (e : LoadEvent) (k : String) :
    bmGet (handleLoadEvent s e).audioBuffers k = bmGet s.audioBuffers k ∨
    (e.success = true ∧ k = bufferKey e.action e.keyType.toStr ∧
      bmGet (handleLoadEvent s e).audioBuffers k
        = some (assetBufferId e.action e.keyType)) ∨
    (∃ gb, e.success = false ∧ k = bufferKey e.action e.keyType.toStr ∧
      (e.keyType.toStr == "generic") = false ∧
      bmGet s.audioBuffers (bufferKey e.action "generic") = some gb ∧
      bmGet (handleLoadEvent s e).audioBuffers k = some gb) := by
  unfold handleLoadEvent storeBuffer loadFallbackBuffer
  dsimp only
  split
  · rename_i hsucc
    by_cases hk : k = bufferKey e.action e.keyType.toStr
    · subst hk
      exact Or.inr (Or.inl ⟨hsucc, rfl, bmGet_bmSet_self _ _ _⟩)
    · exact Or.inl (bmGet_bmSet_ne _ _ _ _ (fun h => hk h.symm))
  · rename_i hsucc
    split
    · rename_i hcond
      split
      · rename_i gb hgb
        by_cases hk : k = bufferKey e.action e.keyType.toStr
        · subst hk
          refine Or.inr (Or.inr ⟨gb, ?_, rfl, ?_, hgb, bmGet_bmSet_self _ _ _⟩)
          · cases hs : e.success
            · rfl
            · exact absurd hs hsucc
          · rcases Bool.and_eq_true_iff.mp hcond with ⟨h1, _⟩
            cases hx : (e.keyType.toStr == "generic")
            · rfl
            · exfalso
              rw [show (e.keyType.toStr != "generic")
                  = !(e.keyType.toStr == "generic") from rfl, hx] at h1
              exact Bool.false_ne_true h1
        · exact Or.inl (bmGet_bmSet_ne _ _ _ _ (fun h => hk h.symm))
      · exact Or.inl rfl
    · exact Or.inl rfl


theorem bufferKey_eq_pressGeneric (a : SoundAction) (kt : KeyType) :
    bufferKey a kt.toStr = pressGenericKey ↔ (a = .press ∧ kt = .generic) := by
  cases a <;> cases kt <;> decide

theorem bufferKey_eq_pressBackspace (a : SoundAction) (kt : KeyType) :
    bufferKey a kt.toStr = pressBackspaceKey ↔ (a = .press ∧ kt = .backspace) := by
  cases a <;> cases kt <;> decide

theorem fallback_inv_step (s : AMState) (e : LoadEvent)
    (he : ¬(e.action = .press ∧ e.keyType = .backspace ∧ e.success = true))
    (hg : ∀ v, bmGet s.audioBuffers pressGenericKey = some v
      → v = assetBufferId .press .generic)
    (hb : ∀ v, bmGet s.audioBuffers pressBackspaceKey = some v
      → v = assetBufferId .press .generic) :
    (∀ v, bmGet (handleLoadEvent s e).audioBuffers pressGenericKey = some v
      → v = assetBufferId .press .generic) ∧
    (∀ v, bmGet (handleLoadEvent s e).audioBuffers pressBackspaceKey = some v
      → v = assetBufferId .press .generic) := by
  constructor
  · intro v hv
    rcases handleLoadEvent_get s e pressGenericKey with
      h | ⟨hs, hk, hval⟩ | ⟨gb, hs, hk, hng, hgb, hval⟩
    · exact hg v (h ▸ hv)
    · obtain ⟨ha, hkt⟩ := (bufferKey_eq_pressGeneric e.action e.keyType).mp hk.symm
      rw [hval] at hv
      injection hv with hv
      rw [← hv, ha, hkt]
    · obtain ⟨ha, hkt⟩ := (bufferKey_eq_pressGeneric e.action e.keyType).mp hk.symm
      rw [hkt] at hng
      exact absurd hng (by decide)
  · intro v hv
    rcases handleLoadEvent_get s e pressBackspaceKey with
      h | ⟨hs, hk, hval⟩ | ⟨gb, hs, hk, hng, hgb, hval⟩
    · exact hb v (h ▸ hv)
    · obtain ⟨ha, hkt⟩ := (bufferKey_eq_pressBackspace e.action e.keyType).mp hk.symm
      exact absurd ⟨ha, hkt, hs⟩ he
    · obtain ⟨ha, hkt⟩ := (bufferKey_eq_pressBackspace e.action e.keyType).mp hk.symm
      rw [ha] at hgb
      have hgid := hg gb hgb
      rw [hval] at hv
      injection hv with hv
      rw [← hv, hgid]

theorem gset_step (s : AMState) (e : LoadEvent)
    (hgen : bmGet s.audioBuffers pressGenericKey
      = some (assetBufferId .press .generic)) :
    bmGet (handleLoadEvent s e).audioBuffers pressGenericKey
      = some (assetBufferId .press .generic) := by
  rcases handleLoadEvent_get s e pressGenericKey with
    h | ⟨hs, hk, hval⟩ | ⟨gb, hs, hk, hng, hgb, hval⟩
  · exact h.trans hgen
  · obtain ⟨ha, hkt⟩ := (bufferKey_eq_pressGeneric e.action e.keyType).mp hk.symm
    rw [hval, ha, hkt]
  · obtain ⟨ha, hkt⟩ := (bufferKey_eq_pressGeneric e.action e.keyType).mp hk.symm
    rw [hkt] at hng
    exact absurd hng (by decide)

theorem bset_step (s : AMState) (e : LoadEvent)
    (he : ¬(e.action = .press ∧ e.keyType = .backspace ∧ e.success = true))
    (hgen : bmGet s.audioBuffers pressGenericKey
      = some (assetBufferId .press .generic))
    (hbak : bmGet s.audioBuffers pressBackspaceKey
      = some (assetBufferId .press .generic)) :
    bmGet (handleLoadEvent s e).audioBuffers pressBackspaceKey
      = some (assetBufferId .press .generic) := by
  rcases handleLoadEvent_get s e pressBackspaceKey with
    h | ⟨hs, hk, hval⟩ | ⟨gb, hs, hk, hng, hgb, hval⟩
  · exact h.trans hbak
  · obtain ⟨ha, hkt⟩ := (bufferKey_eq_pressBackspace e.action e.keyType).mp hk.symm
    exact absurd ⟨ha, hkt, hs⟩ he
  · obtain ⟨ha, hkt⟩ := (bufferKey_eq_pressBackspace e.action e.keyType).mp hk.symm
    rw [ha] at hgb
    have hgb' : bmGet s.audioBuffers pressGenericKey = some gb := hgb
    rw [hgen] at hgb'
    injection hgb' with hh
    rw [hval, ← hh]


theorem fallback_inv_fold (evs : List LoadEvent) (s : AMState)
    (he : ∀ e ∈ evs, ¬(e.action = .press ∧ e.keyType = .backspace ∧ e.success = true))
    (hg : ∀ v, bmGet s.audioBuffers pressGenericKey = some v
      → v = assetBufferId .press .generic)
    (hb : ∀ v, bmGet s.audioBuffers pressBackspaceKey = some v
      → v = assetBufferId .press .generic) :
    (∀ v, bmGet (evs.foldl handleLoadEvent s).audioBuffers pressGenericKey = some v
      → v = assetBufferId .press .generic) ∧
    (∀ v, bmGet (evs.foldl handleLoadEvent s).audioBuffers pressBackspaceKey = some v
      → v = assetBufferId .press .generic) := by
  induction evs generalizing s with
  | nil => exact ⟨hg, hb⟩
  | cons e rest ih =>
      obtain ⟨hg', hb'⟩ := fallback_inv_step s e (he e (by simp)) hg hb
      exact ih _ (fun x hx => he x (by simp [hx])) hg' hb'

theorem pinned_fold (evs : List LoadEvent) (s : AMState)
    (he : ∀ e ∈ evs, ¬(e.action = .press ∧ e.keyType = .backspace ∧ e.success = true))
    (hgen : bmGet s.audioBuffers pressGenericKey
      = some (assetBufferId .press .generic))
    (hbakpin : ∀ v, bmGet s.audioBuffers pressBackspaceKey = some v
      → v = assetBufferId .press .generic) :
    bmGet (evs.foldl handleLoadEvent s).audioBuffers pressGenericKey
      = some (assetBufferId .press .generic) ∧
    (∀ v, bmGet (evs.foldl handleLoadEvent s).audioBuffers pressBackspaceKey = some v
      → v = assetBufferId .press .generic) := by
  induction evs generalizing s with
  | nil => exact ⟨hgen, hbakpin⟩
  | cons e rest ih =>
      have hgen' := gset_step s e hgen
      have hgpin : ∀ v, bmGet s.audioBuffers pressGenericKey = some v
          → v = assetBufferId .press .generic := by
        intro v hv
        rw [hgen] at hv
        injection hv with hv
        exact hv.symm
      have hb' := (fallback_inv_step s e (he e (by simp)) hgpin hbakpin).2
      exact ih _ (fun x hx => he x (by simp [hx])) hgen' hb'

theorem pinned_fold2 (evs : List LoadEvent) (s : AMState)
    (he : ∀ e ∈ evs, ¬(e.action = .press ∧ e.keyType = .backspace ∧ e.success = true))
    (hgen : bmGet s.audioBuffers pressGenericKey
      = some (assetBufferId .press .generic))
    (hbak : bmGet s.audioBuffers pressBackspaceKey
      = some (assetBufferId .press .generic)) :
    bmGet (evs.foldl handleLoadEvent s).audioBuffers pressGenericKey
      = some (assetBufferId .press .generic) ∧
    bmGet (evs.foldl handleLoadEvent s).audioBuffers pressBackspaceKey
      = some (assetBufferId .press .generic) := by
  induction evs generalizing s with
  | nil => exact ⟨hgen, hbak⟩
  | cons e rest ih =>
      exact ih _ (fun x hx => he x (by simp [hx])) (gset_step s e hgen)
        (bset_step s e (he e (by simp)) hgen hbak)

theorem generic_success_establish (s : AMState) :
    bmGet (handleLoadEvent s ⟨.press, .generic, true⟩).audioBuffers
      pressGenericKey = some (assetBufferId .press .generic) := by
  unfold handleLoadEvent storeBuffer
  dsimp only
  rw [if_pos rfl]
  exact bmGet_bmSet_self _ _ _

theorem backspace_fail_establish (s : AMState)
    (hgen : bmGet s.audioBuffers pressGenericKey
      = some (assetBufferId .press .generic))
    (hbakpin : ∀ v, bmGet s.audioBuffers pressBackspaceKey = some v
      → v = assetBufferId .press .generic) :
    bmGet (handleLoadEvent s ⟨.press, .backspace, false⟩).audioBuffers
      pressGenericKey = some (assetBufferId .press .generic) ∧
    bmGet (handleLoadEvent s ⟨.press, .backspace, false⟩).audioBuffers
      pressBackspaceKey = some (assetBufferId .press .generic) := by
  have hgen' : bmGet s.audioBuffers (bufferKey .press "generic")
      = some (assetBufferId .press .generic) := hgen
  by_cases hb : bmGet s.audioBuffers pressBackspaceKey = none
  · have hb' : bmGet s.audioBuffers (bufferKey .press "backspace") = none := hb
    have hcond : shouldUseFallback { s with failedFiles := s.failedFiles + 1 }
        .press "backspace" = true := by
      unfold shouldUseFallback
      rw [show ({ s with failedFiles := s.failedFiles + 1 } : AMState).audioBuffers
          = s.audioBuffers from rfl]
      simp [hb', hgen']
    unfold handleLoadEvent loadFallbackBuffer storeBuffer
    dsimp only [KeyType.toStr]
    rw [if_neg (by decide), if_pos (by rw [hcond]; decide),
      show bmGet ({ s with failedFiles := s.failedFiles + 1 }
        : AMState).audioBuffers (bufferKey SoundAction.press "generic")
        = some (assetBufferId .press .generic) from hgen']
    constructor
    · rw [show pressGenericKey = bufferKey SoundAction.press "generic" from rfl]
      rw [bmGet_bmSet_ne _ _ _ _ (by decide)]
      exact hgen'
    · exact bmGet_bmSet_self _ _ _
  · obtain ⟨v0, hv0⟩ := Option.ne_none_iff_exists'.mp hb
    have hvg := hbakpin v0 hv0
    have hv0' : bmGet s.audioBuffers (bufferKey .press "backspace")
        = some v0 := hv0
    have hcond : shouldUseFallback { s with failedFiles := s.failedFiles + 1 }
        .press "backspace" = false := by
      unfold shouldUseFallback
      rw [show ({ s with failedFiles := s.failedFiles + 1 } : AMState).audioBuffers
          = s.audioBuffers from rfl]
      simp [hv0']
    unfold handleLoadEvent
    dsimp only [KeyType.toStr]
    rw [if_neg (by decide), if_neg (by rw [hcond]; decide)]
    refine ⟨hgen, ?_⟩
    rw [show (({ s with failedFiles := s.failedFiles + 1 }
      : AMState)).audioBuffers = s.audioBuffers from rfl, hv0, hvg]

theorem handleLoadEvent_loaded_mono (s : AMState) (e : LoadEvent) :
    s.loadedFiles ≤ (handleLoadEvent s e).loadedFiles := by
  unfold handleLoadEvent loadFallbackBuffer
  dsimp only
  repeat' split
  all_goals (try simp only [storeBuffer])
  all_goals omega

theorem fold_loaded_mono (evs : List LoadEvent) (s : AMState) :
    s.loadedFiles ≤ (evs.foldl handleLoadEvent s).loadedFiles := by
  induction evs generalizing s with
  | nil => exact le_rfl
  | cons e rest ih =>
      exact (handleLoadEvent_loaded_mono s e).trans (ih (handleLoadEvent s e))

theorem generic_success_loaded (s : AMState) :
    (handleLoadEvent s ⟨.press, .generic, true⟩).loadedFiles
      = s.loadedFiles + 1 := by
  unfold handleLoadEvent storeBuffer
  dsimp only
  rw [if_pos rfl]


theorem playKeySound_plays (s : AMState) (kt : KeyType) (a : SoundAction)
    (v : ℚ) (b : Nat)
    (h1 : s.isInitialized = true) (h2 : s.audioContext.isSome = true)
    (h3 : s.masterGainNode.isSome = true) (h4 : s.isMuted = false)
    (h5 : s.concurrentSoundsCount < MAX_CONCURRENT_SOUNDS)
    (hres : resolvedBuffer s kt a = some b) :
    playKeySound s kt a v benignPlay
      = .ok ({ s with
          gainNodePool := acquireGainNode (acquireGainNode s.gainNodePool),
          activeSourceNodes := freshSourceId s :: s.activeSourceNodes,
          concurrentSoundsCount := s.concurrentSoundsCount + 1 }, some b) := by
  unfold playKeySound
  rw [if_neg (by simp [h1, h2, h3]), if_neg (by simp [h4]),
    if_neg (by simp [canPlayConcurrentSound, h5]), if_neg (by decide), hres]
  dsimp only
  rw [if_neg (by decide), if_neg (by decide)]

/-- C5 as amended: the substitution is guaranteed only when the
successful `press:generic` load settles *before* the `press:backspace`
failure is handled (`shouldUseFallback` consults the buffers already
loaded at that moment).  For every load run of that shape — events
`l1 ++ (press:generic success) :: l2 ++ (press:backspace failure) :: l3`
with no successful `press:backspace` load anywhere — `initialize()`
succeeds, the store substitutes the generic buffer under
`press:backspace`, `getPreloadingStats().loadedBuffers` includes
`press:backspace`, and `playSound('backspace','press')` resolves and
plays the generic buffer. -/
theorem c5_fallback_amended (env : InitEnv) (l1 l2 l3 : List LoadEvent) (t : ℚ)
    (hcf : env.contextFails = false)
    (hevs : env.loadEvents
      = (l1 ++ LoadEvent.mk .press .generic true :: l2)
        ++ LoadEvent.mk .press .backspace false :: l3)
    (he : ∀ e ∈ env.loadEvents,
      ¬(e.action = .press ∧ e.keyType = .backspace ∧ e.success = true)) :
    (amInit AMState.fresh env).2 = none ∧
    bmGet (amInit AMState.fresh env).1.audioBuffers pressBackspaceKey
      = some (assetBufferId .press .generic) ∧
    pressBackspaceKey ∈
      (getPreloadingStats (amInit AMState.fresh env).1 t).loadedBuffers ∧
    resolvedBuffer (amInit AMState.fresh env).1 .backspace .press
      = some (assetBufferId .press .generic) ∧
    (∃ u, playKeySound (amInit AMState.fresh env).1 .backspace .press 1 benignPlay
      = .ok (u, some (assetBufferId .press .generic))) := by
  rw [hevs] at he
  unfold amInit
  rw [if_neg (show ¬(AMState.fresh.isInitialized = true) from Bool.false_ne_true)]
  rw [if_neg (by rw [hcf]; exact Bool.false_ne_true)]
  unfold preloadSounds
  dsimp only
  rw [hevs]
  set sB : AMState :=
    { AMState.fresh with
      audioContext := some []
      preloadingPromiseSet := true
      masterGainNode := some DEFAULT_VOLUME
      preloadStartTime := env.now
      totalFiles := 8
      loadedFiles := 0
      failedFiles := 0
      gainNodePool :=
        if MAX_CONCURRENT_SOUNDS ≤ 5 then MAX_CONCURRENT_SOUNDS else 5 }
    with hsB
  have he1 : ∀ e ∈ l1,
      ¬(e.action = .press ∧ e.keyType = .backspace ∧ e.success = true) :=
    fun e hx => he e (by simp [hx])
  have he2 : ∀ e ∈ l2,
      ¬(e.action = .press ∧ e.keyType = .backspace ∧ e.success = true) :=
    fun e hx => he e (by simp [hx])
  have he3 : ∀ e ∈ l3,
      ¬(e.action = .press ∧ e.keyType = .backspace ∧ e.success = true) :=
    fun e hx => he e (by simp [hx])
  have hP0 := fallback_inv_fold l1 sB he1
    (fun v hv => absurd hv (by rw [hsB]; simp [bmGet]))
    (fun v hv => absurd hv (by rw [hsB]; simp [bmGet]))
  set sA := List.foldl handleLoadEvent sB l1 with hsA
  set sG := handleLoadEvent sA (LoadEvent.mk .press .generic true) with hsG
  have hGen1 := generic_success_establish sA
  have hBakPin1 := (fallback_inv_step sA (LoadEvent.mk .press .generic true)
    (by decide) hP0.1 hP0.2).2
  obtain ⟨hGen2, hBakPin2⟩ := pinned_fold l2 sG he2 hGen1 hBakPin1
  set sM := List.foldl handleLoadEvent sG l2 with hsM
  set sF := handleLoadEvent sM (LoadEvent.mk .press .backspace false) with hsF
  obtain ⟨hGen3, hBak3⟩ := backspace_fail_establish sM hGen2 hBakPin2
  obtain ⟨hGen4, hBak4⟩ := pinned_fold2 l3 sF he3 hGen3 hBak3
  set sE := List.foldl handleLoadEvent sF l3 with hsE
  have hsplit : List.foldl handleLoadEvent sB
      ((l1 ++ LoadEvent.mk .press .generic true :: l2)
        ++ LoadEvent.mk .press .backspace false :: l3) = sE := by
    rw [List.foldl_append, List.foldl_append, List.foldl_cons, List.foldl_cons]
  rw [hsplit]
  have hld : 1 ≤ sE.loadedFiles := by
    have h1 : 1 ≤ sG.loadedFiles := by
      rw [hsG, generic_success_loaded sA]
      omega
    have h2 : sG.loadedFiles ≤ sM.loadedFiles := by
      rw [hsM]
      exact fold_loaded_mono l2 sG
    have h3 : sM.loadedFiles ≤ sF.loadedFiles := by
      rw [hsF]
      exact handleLoadEvent_loaded_mono sM (LoadEvent.mk .press .backspace false)
    have h4 : sF.loadedFiles ≤ sE.loadedFiles := by
      rw [hsE]
      exact fold_loaded_mono l3 sF
    omega
  rw [if_neg (by omega)]
  dsimp only
  have hframe := preloadFold_frame
    ((l1 ++ LoadEvent.mk .press .generic true :: l2)
      ++ LoadEvent.mk .press .backspace false :: l3) sB
  rw [hsplit] at hframe
  have hctx : sE.audioContext.isSome = true :=
    (hframe.2.2.2.2.2.2.2.2.2).trans rfl
  have hmg : sE.masterGainNode = some DEFAULT_VOLUME := (hframe.2.2.1).trans rfl
  have hmut : sE.isMuted = false := (hframe.2.2.2.1).trans rfl
  have hcnt : sE.concurrentSoundsCount = 0 := (hframe.2.1).trans rfl
  have hres : resolvedBuffer { sE with isInitialized := true } .backspace .press
      = some (assetBufferId .press .generic) := by
    unfold resolvedBuffer
    dsimp only [KeyType.toStr]
    rw [show bmGet ({ sE with isInitialized := true } : AMState).audioBuffers
        (bufferKey SoundAction.press "backspace")
        = some (assetBufferId .press .generic) from hBak4]
  refine ⟨rfl, hBak4, ?_, hres, ?_⟩
  · simp only [getPreloadingStats]
    exact bmGet_mem_keys _ _ _ hBak4
  · have hcan : canPlayConcurrentSound { sE with isInitialized := true } = true := by
      unfold canPlayConcurrentSound
      rw [show ({ sE with isInitialized := true } : AMState).concurrentSoundsCount
          = sE.concurrentSoundsCount from rfl, hcnt]
      decide
    exact ⟨_, playKeySound_plays { sE with isInitialized := true }
      .backspace .press 1 (assetBufferId .press .generic)
      rfl hctx (by rw [show ({ sE with isInitialized := true }
          : AMState).masterGainNode = sE.masterGainNode from rfl, hmg]; rfl)
      hmut (by rw [show ({ sE with isInitialized := true }
          : AMState).concurrentSoundsCount
          = sE.concurrentSoundsCount from rfl, hcnt]; decide)
      hres⟩

/-- Witness for C6: on the all-fail run initialization fails with
NoBuffersLoaded and the manager is not ready; on the all-success run it is
ready with all 8 files loaded. -/
theorem c6_no_buffers_and_readiness_witness :
    ((amInit AMState.fresh ⟨false, allFailEvents, 0⟩).2
        = some AMError.noBuffersLoaded ∧
      isReady (amInit AMState.fresh ⟨false, allFailEvents, 0⟩).1 = false) ∧
    (isReady (amInit AMState.fresh ⟨false, allOkEvents, 0⟩).1 = true ∧
      1 ≤ (getPreloadingStats
        (amInit AMState.fresh ⟨false, allOkEvents, 0⟩).1 0).loadedFiles) :=
  ⟨(c6_no_buffers_and_readiness ⟨false, allFailEvents, 0⟩ 0).1 rfl (by decide),
   (c6_no_buffers_and_readiness ⟨false, allOkEvents, 0⟩ 0).2 (by decide)⟩

/-- C5, counterexample to the claim as stated: in the load run
`backspaceFailsFirst` the asset for `press:backspace` fails while
`press:generic` (and every other asset) loads successfully — the claim's
premise — yet because the backspace failure settles before the generic
buffer is in the store, `shouldUseFallback` sees no generic buffer, no
substitution happens: `press:backspace` has no buffer, it is missing from
`getPreloadingStats().loadedBuffers`, and `playSound('backspace','press')`
is a silent no-op instead of playing the generic buffer. -/
theorem c5_fallback_counterexample :
    (∃ e ∈ backspaceFailsFirst,
      e.action = SoundAction.press ∧ e.keyType = KeyType.generic ∧
      e.success = true) ∧
    (∃ e ∈ backspaceFailsFirst,
      e.action = SoundAction.press ∧ e.keyType = KeyType.backspace ∧
      e.success = false) ∧
    (amInit AMState.fresh ⟨false, backspaceFailsFirst, 0⟩).2 = none ∧
    bmGet (amInit AMState.fresh
      ⟨false, backspaceFailsFirst, 0⟩).1.audioBuffers pressBackspaceKey
      = none ∧
    pressBackspaceKey ∉ (getPreloadingStats
      (amInit AMState.fresh ⟨false, backspaceFailsFirst, 0⟩).1 0).loadedBuffers ∧
    playKeySound (amInit AMState.fresh ⟨false, backspaceFailsFirst, 0⟩).1
      .backspace .press 1 benignPlay
      = .ok ((amInit AMState.fresh ⟨false, backspaceFailsFirst, 0⟩).1, none) := by
  decide

/-- Witness for the amended C5 on the concrete run
`backspaceFailsAfterGeneric` (generic settles first, then the backspace
failure; all other assets load fine). -/
theorem c5_fallback_amended_witness :
    (amInit AMState.fresh ⟨false, backspaceFailsAfterGeneric, 0⟩).2 = none ∧
    bmGet (amInit AMState.fresh
      ⟨false, backspaceFailsAfterGeneric, 0⟩).1.audioBuffers pressBackspaceKey
      = some (assetBufferId .press .generic) ∧
    pressBackspaceKey ∈ (getPreloadingStats
      (amInit AMState.fresh ⟨false, backspaceFailsAfterGeneric, 0⟩).1
        0).loadedBuffers ∧
    resolvedBuffer (amInit AMState.fresh
      ⟨false, backspaceFailsAfterGeneric, 0⟩).1 .backspace .press
      = some (assetBufferId .press .generic) ∧
    (∃ u, playKeySound
      (amInit AMState.fresh ⟨false, backspaceFailsAfterGeneric, 0⟩).1
      .backspace .press 1 benignPlay
      = .ok (u, some (assetBufferId .press .generic))) :=
  c5_fallback_amended ⟨false, backspaceFailsAfterGeneric, 0⟩ [] []
    [⟨.press, .enter, true⟩, ⟨.press, .space, true⟩,
     ⟨.release, .generic, true⟩, ⟨.release, .backspace, true⟩,
     ⟨.release, .enter, true⟩, ⟨.release, .space, true⟩] 0
    rfl (by decide) (by decide)

/-- C9: `destroy()` resets the manager exactly to the freshly constructed
state — it stops and clears all active sources (ignoring already-stopped
errors inside `stopAllSounds`), clears both buffer maps and the gain-node
pool, and resets every counter and the volume state to the constructor
values — so it is idempotent (safe to call multiple times), and
`destroy()` followed by `initialize()` is literally the same computation
as a fresh first-time `initialize()`: the resulting states are
indistinguishable by `isReady()` and `getPreloadingStats()` (indeed they
are equal). -/
theorem c9_destroy_then_reinit (s : AMState) (env : InitEnv) (t : ℚ) :
    destroy s = AMState.fresh ∧
    destroy (destroy s) = destroy s ∧
    (destroy s).activeSourceNodes = [] ∧
    (destroy s).concurrentSoundsCount = 0 ∧
    (destroy s).audioBuffers = [] ∧
    (destroy s).audioContext = none ∧
    (destroy s).gainNodePool = 0 ∧
    (destroy s).loadedFiles = 0 ∧
    (destroy s).currentVolume = DEFAULT_VOLUME ∧
    (destroy s).isMuted = false ∧
    (destroy s).isInitialized = false ∧
    amInit (destroy s) env = amInit AMState.fresh env ∧
    isReady (amInit (destroy s) env).1 = isReady (amInit AMState.fresh env).1 ∧
    getPreloadingStats (amInit (destroy s) env).1 t
      = getPreloadingStats (amInit AMState.fresh env).1 t :=
  ⟨rfl, rfl, rfl, rfl, rfl, rfl, rfl, rfl, rfl, rfl, rfl, rfl, rfl, rfl⟩

end Thockify
